import Mathlib

/-!
Verification of the sign-detection streaming pipeline

Shallow embedding of `src/modules/sign_detection/service.py` and
`src/modules/sign_detection/router.py` (plus the relevant fields of
`src/core/config.py`).  Python floats (`time.time()` values and classifier
confidences) are modelled as rationals, Python ints as integers; the
per-frame Python `None` result and the per-frame `ValueError` are modelled
with `Option`/`Except`.
-/

/-- The sign-detection fields of `Settings` in `src/core/config.py`
(lines 34-40).  The class declares plain typed fields with defaults and
performs no range validation of any kind. -/
structure Settings where
  SIGN_DETECTION_CONFIDENCE_THRESHOLD : ℚ
  SIGN_DETECTION_MAX_REPEATS : ℤ
  SIGN_DETECTION_COOLDOWN : ℚ
deriving DecidableEq

/-- The default values given in `src/core/config.py`: threshold 0.6,
max repeats 2, cooldown 2.0 seconds. -/
def defaultSettings : Settings :=
  { SIGN_DETECTION_CONFIDENCE_THRESHOLD := 3/5
    SIGN_DETECTION_MAX_REPEATS := 2
    SIGN_DETECTION_COOLDOWN := 2 }

/-- The configuration fields a `SignLanguageService` instance carries:
`_confidence_threshold` (class attribute, line 42), `_max_repeats` and
`_cooldown_seconds` (set in `__init__`, lines 49-50). -/
structure ServiceConfig where
  confidence_threshold : ℚ
  max_repeats : ℤ
  cooldown_seconds : ℚ
deriving DecidableEq

/-- `SignLanguageService.__init__` / class body: the configuration values are
copied verbatim from `settings`; no check is performed and no error can be
raised (the Python code is plain attribute assignment). -/
def serviceInit (st : Settings) : ServiceConfig :=
  { confidence_threshold := st.SIGN_DETECTION_CONFIDENCE_THRESHOLD
    max_repeats := st.SIGN_DETECTION_MAX_REPEATS
    cooldown_seconds := st.SIGN_DETECTION_COOLDOWN }

/-- The default configuration: `serviceInit defaultSettings`. -/
def cfg0 : ServiceConfig := serviceInit defaultSettings

/-- The mutable deduplication fields of `SignLanguageService`:
`_last_sign : str | None`, `_last_sign_time : float`,
`_same_sign_count : int` (service.py lines 46-48). -/
structure DedupState where
  last_sign : Option String
  last_sign_time : ℚ
  same_sign_count : ℤ
deriving DecidableEq

/-- The state set up by `__init__` (service.py lines 46-48):
`_last_sign = None`, `_last_sign_time = 0`, `_same_sign_count = 0`. -/
def initState : DedupState :=
  { last_sign := none, last_sign_time := 0, same_sign_count := 0 }

/-- The distinct return points of `predict_frame` (service.py lines 99-143).
`noPrediction` is the empty-predictions return (line 100), `lowConfidence`
the below-threshold return (line 107), `suppressed` the max-repeats return
(line 130); all three return Python `None`.  `emit` is the
`PredictionResult` return (line 143). -/
inductive PredictOut where
  | noPrediction
  | lowConfidence
  | suppressed
  | emit (sign : String) (confidence : ℚ) (is_new : Bool)
deriving DecidableEq

/-- Projection to the Python return value of `predict_frame`:
`emit` becomes the `PredictionResult` dict, everything else is `None`. -/
def toResult : PredictOut → Option (String × ℚ × Bool)
  | .emit sign confidence is_new => some (sign, confidence, is_new)
  | _ => none

/-- The classification-plus-deduplication core of
`SignLanguageService.predict_frame` (service.py lines 99-143), acting on the
classifier output `predictions` (ranked `(label, score)` list) at wall-clock
time `now`.  Returns the state after the call and the outcome. -/
def classifyStep (cfg : ServiceConfig) (s : DedupState)
    (predictions : List (String × ℚ)) (now : ℚ) : DedupState × PredictOut :=
  match predictions with
  | [] => (s, .noPrediction)
  | (sign, confidence) :: _ =>
    if confidence < cfg.confidence_threshold then
      (s, .lowConfidence)
    else if s.last_sign = some sign then
      if now - s.last_sign_time > cfg.cooldown_seconds then
        ({ last_sign := s.last_sign, last_sign_time := now, same_sign_count := 1 },
          .emit sign confidence true)
      else
        let s2 : DedupState :=
          { s with same_sign_count := s.same_sign_count + 1 }
        if s2.same_sign_count > cfg.max_repeats then
          (s2, .suppressed)
        else
          (s2, .emit sign confidence false)
    else
      ({ last_sign := some sign, last_sign_time := now, same_sign_count := 1 },
        .emit sign confidence true)

/-- An inbound frame as `predict_frame` sees it: either bytes that
`Image.open`/`convert` rejects (raising `OSError`/`ValueError` with message
`err`), or a decodable image on which the classifier returns `predictions`. -/
inductive Frame where
  | malformed (err : String)
  | valid (predictions : List (String × ℚ))
deriving DecidableEq

/-- `SignLanguageService.predict_frame` (service.py lines 87-147) at frame
level: a malformed frame raises `ValueError("Failed to process image: ...")`
before any deduplication state is read or written (the `except` at line 145
re-raises); a decodable frame runs `classifyStep`. -/
def predict_frame (cfg : ServiceConfig) (s : DedupState) (f : Frame) (now : ℚ) :
    Except String (DedupState × PredictOut) :=
  match f with
  | .malformed err => .error ("Failed to process image: " ++ err)
  | .valid predictions => .ok (classifyStep cfg s predictions now)

/-- Python `round(x, 4)` rounds to the nearest multiple of `1/10000`,
ties to even.  `roundHalfEven` is the integer-valued rounding. -/
def roundHalfEven (q : ℚ) : ℤ :=
  if q - ⌊q⌋ < 1/2 then ⌊q⌋
  else if q - ⌊q⌋ > 1/2 then ⌊q⌋ + 1
  else if ⌊q⌋ % 2 = 0 then ⌊q⌋ else ⌊q⌋ + 1

/-- `round(confidence, 4)` as used in router.py line 68. -/
def round4 (q : ℚ) : ℚ := (roundHalfEven (q * 10000) : ℚ) / 10000

/-- The JSON object sent per frame by `websocket_predict` (router.py
lines 57-91), with each possible key an optional field. -/
structure Response where
  sign : Option String
  confidence : Option ℚ
  is_new : Option Bool
  message : Option String
  error : Option String
deriving DecidableEq

/-- The success payload of router.py lines 66-70:
`{"sign": ..., "confidence": round(..., 4), "is_new": ...}`. -/
def successResponse (sign : String) (confidence : ℚ) (is_new : Bool) : Response :=
  { sign := some sign, confidence := some (round4 confidence), is_new := some is_new
    message := none, error := none }

/-- The no-detection payload of router.py lines 59-63:
`{"sign": None, "confidence": 0.0, "message": "No confident detection"}`. -/
def noDetectionResponse : Response :=
  { sign := none, confidence := some 0, is_new := none
    message := some "No confident detection", error := none }

/-- The error payload of router.py lines 78-81:
`{"error": "Invalid image data", "message": str(e)}`. -/
def invalidImageResponse (msg : String) : Response :=
  { sign := none, confidence := none, is_new := none
    message := some msg, error := some "Invalid image data" }

/-- One iteration of the `while True` loop of `websocket_predict` (router.py
lines 49-91): run `predict_frame`; on `ValueError` send the error payload and
keep the state the service had; on `None` send the no-detection payload;
otherwise send the success payload.  The response list collects the
`send_text` calls of the iteration. -/
def handleFrame (cfg : ServiceConfig) (s : DedupState) (f : Frame) (now : ℚ) :
    DedupState × List Response :=
  match predict_frame cfg s f now with
  | .error msg => (s, [invalidImageResponse msg])
  | .ok (s2, out) =>
    match toResult out with
    | none => (s2, [noDetectionResponse])
    | some (sign, confidence, is_new) => (s2, [successResponse sign confidence is_new])

/-- The receive loop of one open connection: frames with their arrival
times, processed strictly in order, each producing its responses. -/
def runSession (cfg : ServiceConfig) (s : DedupState) :
    List (Frame × ℚ) → DedupState × List Response
  | [] => (s, [])
  | (f, t) :: rest =>
    let r := handleFrame cfg s f t
    let r2 := runSession cfg r.1 rest
    (r2.1, r.2 ++ r2.2)

/-- The deployed topology: `SignLanguageService.__new__` (service.py
lines 52-56) and `get_service_instance` (lines 242-251) make the service —
and with it the deduplication state — a process-wide singleton, and
`get_sign_service` (dependencies.py) hands every connection that same
instance.  So frames from all connections, tagged with a connection id,
thread through one shared state; each response is delivered to the
connection whose frame produced it. -/
def sharedRun (cfg : ServiceConfig) (s : DedupState) :
    List (ℕ × Frame × ℚ) → DedupState × List (ℕ × Response)
  | [] => (s, [])
  | (cid, f, t) :: rest =>
    let r := handleFrame cfg s f t
    let r2 := sharedRun cfg r.1 rest
    (r2.1, r.2.map (fun e => (cid, e)) ++ r2.2)

/-- The responses a given connection receives out of a shared run. -/
def connResponses (cid : ℕ) (out : List (ℕ × Response)) : List Response :=
  (out.filter (fun p => p.1 = cid)).map Prod.snd

/-- A session that always classifies the same single label `L`, each frame
carrying its confidence and arrival time; records the `predict_frame`
outcome of every frame. -/
def runSigns (cfg : ServiceConfig) (L : String) (s : DedupState) :
    List (ℚ × ℚ) → DedupState × List PredictOut
  | [] => (s, [])
  | (c, t) :: rest =>
    let r := classifyStep cfg s [(L, c)] t
    let r2 := runSigns cfg L r.1 rest
    (r2.1, r.2 :: r2.2)

/-- A general run recording the `predict_frame` outcome of each decodable
frame (classifier output plus arrival time). -/
def runFrames (cfg : ServiceConfig) (s : DedupState) :
    List (List (String × ℚ) × ℚ) → DedupState × List PredictOut
  | [] => (s, [])
  | (predictions, t) :: rest =>
    let r := classifyStep cfg s predictions t
    let r2 := runFrames cfg r.1 rest
    (r2.1, r.2 :: r2.2)

/-- The outcome pattern of same-label calls within the cooldown window when
the repeat counter stands at `k`: each call increments the counter and is
suppressed once the counter exceeds `maxR`, emitting a repeat otherwise. -/
def expectedRepeats (maxR : ℤ) (L : String) (k : ℤ) :
    List (ℚ × ℚ) → List PredictOut
  | [] => []
  | (c, _) :: rest =>
    (if k + 1 > maxR then PredictOut.suppressed else PredictOut.emit L c false)
      :: expectedRepeats maxR L (k + 1) rest

/-! ### Single-step characterizations of `classifyStep` -/

/-- Below-threshold branch (service.py lines 106-107): no state change. -/
theorem classifyStep_low (cfg : ServiceConfig) (s : DedupState) (L : String)
    (c : ℚ) (tail : List (String × ℚ)) (now : ℚ)
    (h : c < cfg.confidence_threshold) :
    classifyStep cfg s ((L, c) :: tail) now = (s, .lowConfidence) := by
  simp [classifyStep, h]

/-- New-label branch (service.py lines 133-138). -/
theorem classifyStep_new (cfg : ServiceConfig) (s : DedupState) (L : String)
    (c : ℚ) (tail : List (String × ℚ)) (now : ℚ)
    (hc : ¬ c < cfg.confidence_threshold) (hL : ¬ s.last_sign = some L) :
    classifyStep cfg s ((L, c) :: tail) now =
      ({ last_sign := some L, last_sign_time := now, same_sign_count := 1 },
        .emit L c true) := by
  simp [classifyStep, hc, hL]

/-- Cooldown-elapsed branch (service.py lines 121-124). -/
theorem classifyStep_reset (cfg : ServiceConfig) (s : DedupState) (L : String)
    (c : ℚ) (tail : List (String × ℚ)) (now : ℚ)
    (hc : ¬ c < cfg.confidence_threshold) (hL : s.last_sign = some L)
    (ht : now - s.last_sign_time > cfg.cooldown_seconds) :
    classifyStep cfg s ((L, c) :: tail) now =
      ({ last_sign := some L, last_sign_time := now, same_sign_count := 1 },
        .emit L c true) := by
  simp [classifyStep, hc, hL, ht]

/-- Same-label-within-cooldown, counter exceeded (service.py lines 126-130). -/
theorem classifyStep_suppressed (cfg : ServiceConfig) (s : DedupState) (L : String)
    (c : ℚ) (tail : List (String × ℚ)) (now : ℚ)
    (hc : ¬ c < cfg.confidence_threshold) (hL : s.last_sign = some L)
    (ht : ¬ now - s.last_sign_time > cfg.cooldown_seconds)
    (hk : s.same_sign_count + 1 > cfg.max_repeats) :
    classifyStep cfg s ((L, c) :: tail) now =
      ({ s with same_sign_count := s.same_sign_count + 1 }, .suppressed) := by
  simp [classifyStep, hc, hL, ht, hk]

/-- Same-label-within-cooldown, repeat emitted (service.py lines 126-132). -/
theorem classifyStep_repeat (cfg : ServiceConfig) (s : DedupState) (L : String)
    (c : ℚ) (tail : List (String × ℚ)) (now : ℚ)
    (hc : ¬ c < cfg.confidence_threshold) (hL : s.last_sign = some L)
    (ht : ¬ now - s.last_sign_time > cfg.cooldown_seconds)
    (hk : ¬ s.same_sign_count + 1 > cfg.max_repeats) :
    classifyStep cfg s ((L, c) :: tail) now =
      ({ s with same_sign_count := s.same_sign_count + 1 }, .emit L c false) := by
  simp [classifyStep, hc, hL, ht, hk]

/-! ### Claim theorems -/

/-- Claim C5: a classification whose confidence is strictly below the
threshold causes no state transition, `predict_frame` returns `None`, and the
session controller reports the no-detection event — regardless of label,
tail of the ranking, prior state, or time. -/
theorem low_confidence_no_transition (cfg : ServiceConfig) (s : DedupState)
    (L : String) (c : ℚ) (tail : List (String × ℚ)) (now : ℚ)
    (h : c < cfg.confidence_threshold) :
    classifyStep cfg s ((L, c) :: tail) now = (s, .lowConfidence)
    ∧ toResult (classifyStep cfg s ((L, c) :: tail) now).2 = none
    ∧ handleFrame cfg s (.valid ((L, c) :: tail)) now = (s, [noDetectionResponse]) := by
  refine ⟨classifyStep_low cfg s L c tail now h, ?_, ?_⟩
  · rw [classifyStep_low cfg s L c tail now h]; rfl
  · simp [handleFrame, predict_frame, classifyStep_low cfg s L c tail now h, toResult]

/-- Claim C5 witness at threshold 0.6, confidence 0.3. -/
theorem low_confidence_no_transition_witness :
    classifyStep cfg0 initState [("A", 3/10)] 0 = (initState, .lowConfidence)
    ∧ toResult (classifyStep cfg0 initState [("A", 3/10)] 0).2 = none
    ∧ handleFrame cfg0 initState (.valid [("A", 3/10)]) 0 = (initState, [noDetectionResponse]) :=
  low_confidence_no_transition cfg0 initState "A" (3/10) [] 0
    (by norm_num [cfg0, serviceInit, defaultSettings])

/-- Claim C6: with confidence at or above the threshold, an unset
`last_sign` or a label different from `last_sign` makes the state
`{last_label := L, last_label_timestamp := now, repeat_count := 1}` and
emits `is_new = true`. -/
theorem new_label_transition (cfg : ServiceConfig) (s : DedupState)
    (L : String) (c : ℚ) (tail : List (String × ℚ)) (now : ℚ)
    (hc : cfg.confidence_threshold ≤ c)
    (hL : s.last_sign = none ∨ s.last_sign ≠ some L) :
    classifyStep cfg s ((L, c) :: tail) now =
      ({ last_sign := some L, last_sign_time := now, same_sign_count := 1 },
        .emit L c true) := by
  have hL2 : ¬ s.last_sign = some L := by
    rcases hL with h | h
    · rw [h]; exact fun hx => Option.noConfusion hx
    · exact h
  exact classifyStep_new cfg s L c tail now (not_lt.mpr hc) hL2

/-- Claim C6 witness: the first above-threshold classification on a fresh
connection, and a switch from label A to label B, both emit `is_new = true`
with counter 1. -/
theorem new_label_transition_witness :
    classifyStep cfg0 initState [("A", 9/10)] 0 =
      ({ last_sign := some "A", last_sign_time := 0, same_sign_count := 1 },
        .emit "A" (9/10) true)
    ∧ classifyStep cfg0
        { last_sign := some "A", last_sign_time := 0, same_sign_count := 2 }
        [("B", 19/20)] (1/2) =
      ({ last_sign := some "B", last_sign_time := 1/2, same_sign_count := 1 },
        .emit "B" (19/20) true) := by
  constructor
  · exact new_label_transition cfg0 initState "A" (9/10) [] 0
      (by norm_num [cfg0, serviceInit, defaultSettings]) (Or.inl rfl)
  · exact new_label_transition cfg0
      { last_sign := some "A", last_sign_time := 0, same_sign_count := 2 }
      "B" (19/20) [] (1/2)
      (by norm_num [cfg0, serviceInit, defaultSettings]) (Or.inr (by simp))

/-- Claim C4: a same-label classification at or above the threshold after a
gap strictly greater than the cooldown is a fresh occurrence — state
`{L, now, 1}`, output `emit(L, c, is_new := true)`; a gap exactly equal to
the cooldown does not re-trigger: the counter increments instead and the
timestamp stays put. -/
theorem cooldown_reset_strict (cfg : ServiceConfig) (L : String) (c : ℚ)
    (t0 now : ℚ) (k : ℤ) (tail : List (String × ℚ))
    (hc : cfg.confidence_threshold ≤ c) :
    (now - t0 > cfg.cooldown_seconds →
      classifyStep cfg { last_sign := some L, last_sign_time := t0, same_sign_count := k }
          ((L, c) :: tail) now =
        ({ last_sign := some L, last_sign_time := now, same_sign_count := 1 },
          .emit L c true))
    ∧ (now - t0 = cfg.cooldown_seconds →
      classifyStep cfg { last_sign := some L, last_sign_time := t0, same_sign_count := k }
          ((L, c) :: tail) now =
        ({ last_sign := some L, last_sign_time := t0, same_sign_count := k + 1 },
          if k + 1 > cfg.max_repeats then PredictOut.suppressed
          else PredictOut.emit L c false)) := by
  constructor
  · intro ht
    exact classifyStep_reset cfg _ L c tail now (not_lt.mpr hc) rfl ht
  · intro ht
    have ht2 : ¬ now - t0 > cfg.cooldown_seconds := by rw [ht]; exact lt_irrefl _
    by_cases hk : k + 1 > cfg.max_repeats
    · rw [classifyStep_suppressed cfg _ L c tail now (not_lt.mpr hc) rfl ht2 hk, if_pos hk]
    · rw [classifyStep_repeat cfg _ L c tail now (not_lt.mpr hc) rfl ht2 hk, if_neg hk]

/-- Claim C4 witness: with cooldown 2.0, a gap of 3.0 re-triggers
`is_new = true` and resets the counter to 1; a gap of exactly 2.0 does not
(the counter increments to 6 and the frame is suppressed). -/
theorem cooldown_reset_strict_witness :
    classifyStep cfg0
        { last_sign := some "A", last_sign_time := 0, same_sign_count := 5 }
        [("A", 9/10)] 3 =
      ({ last_sign := some "A", last_sign_time := 3, same_sign_count := 1 },
        .emit "A" (9/10) true)
    ∧ classifyStep cfg0
        { last_sign := some "A", last_sign_time := 0, same_sign_count := 5 }
        [("A", 9/10)] 2 =
      ({ last_sign := some "A", last_sign_time := 0, same_sign_count := 6 },
        .suppressed) := by
  constructor
  · exact (cooldown_reset_strict cfg0 "A" (9/10) 0 3 5 []
      (by norm_num [cfg0, serviceInit, defaultSettings])).1
      (by norm_num [cfg0, serviceInit, defaultSettings])
  · have h := (cooldown_reset_strict cfg0 "A" (9/10) 0 2 5 []
      (by norm_num [cfg0, serviceInit, defaultSettings])).2
      (by norm_num [cfg0, serviceInit, defaultSettings])
    rw [h]
    norm_num [cfg0, serviceInit, defaultSettings]

/-- Claim C10: `last_sign_time` is written only by the two branches that
emit `is_new = true` (where it becomes `now`); repeat emissions and
suppressed frames leave it unchanged, and below-threshold or
empty-prediction frames leave the whole state unchanged. -/
theorem timestamp_only_on_new (cfg : ServiceConfig) (s : DedupState)
    (predictions : List (String × ℚ)) (now : ℚ) :
    (∀ L c, (classifyStep cfg s predictions now).2 = .emit L c true →
      (classifyStep cfg s predictions now).1.last_sign_time = now)
    ∧ (∀ L c, (classifyStep cfg s predictions now).2 = .emit L c false →
      (classifyStep cfg s predictions now).1.last_sign_time = s.last_sign_time)
    ∧ ((classifyStep cfg s predictions now).2 = .suppressed →
      (classifyStep cfg s predictions now).1.last_sign_time = s.last_sign_time)
    ∧ ((classifyStep cfg s predictions now).2 = .lowConfidence
        ∨ (classifyStep cfg s predictions now).2 = .noPrediction →
      (classifyStep cfg s predictions now).1 = s) := by
  rcases predictions with _ | ⟨⟨L0, c0⟩, tail⟩
  · refine ⟨?_, ?_, ?_, ?_⟩ <;> simp [classifyStep]
  · refine ⟨?_, ?_, ?_, ?_⟩ <;>
      · simp only [classifyStep]
        split_ifs <;> simp_all

/-- Claim C10 witness: a repeat emission keeps the timestamp, a cooldown
re-trigger moves it to `now`. -/
theorem timestamp_only_on_new_witness :
    (classifyStep cfg0
        { last_sign := some "A", last_sign_time := 0, same_sign_count := 1 }
        [("A", 9/10)] 3).1.last_sign_time = 3
    ∧ (classifyStep cfg0
        { last_sign := some "A", last_sign_time := 0, same_sign_count := 1 }
        [("A", 9/10)] (1/2)).1.last_sign_time = 0 := by
  constructor
  · exact (timestamp_only_on_new cfg0
      { last_sign := some "A", last_sign_time := 0, same_sign_count := 1 }
      [("A", 9/10)] 3).1 "A" (9/10)
      (by rw [classifyStep_reset cfg0 _ "A" (9/10) [] 3 (by norm_num [cfg0, serviceInit, defaultSettings]) rfl
        (by norm_num [cfg0, serviceInit, defaultSettings])])
  · exact (timestamp_only_on_new cfg0
      { last_sign := some "A", last_sign_time := 0, same_sign_count := 1 }
      [("A", 9/10)] (1/2)).2.1 "A" (9/10)
      (by rw [classifyStep_repeat cfg0 _ "A" (9/10) [] (1/2) (by norm_num [cfg0, serviceInit, defaultSettings]) rfl
        (by norm_num [cfg0, serviceInit, defaultSettings]) (by norm_num [cfg0, serviceInit, defaultSettings])])

/-- Same-label calls at or above the threshold, all within the cooldown
window measured from `t0` (the timestamp the state carries): each call
increments the counter, keeps label and timestamp, and is suppressed exactly
once the counter exceeds `max_repeats`. -/
theorem runSigns_within (cfg : ServiceConfig) (L : String) (t0 : ℚ) :
    ∀ (inputs : List (ℚ × ℚ)) (k : ℤ),
      (∀ p ∈ inputs, cfg.confidence_threshold ≤ p.1 ∧ p.2 - t0 ≤ cfg.cooldown_seconds) →
      runSigns cfg L
          { last_sign := some L, last_sign_time := t0, same_sign_count := k } inputs =
        ({ last_sign := some L, last_sign_time := t0,
            same_sign_count := k + inputs.length },
          expectedRepeats cfg.max_repeats L k inputs) := by
  intro inputs
  induction inputs with
  | nil => intro k h; simp [runSigns, expectedRepeats]
  | cons p rest ih =>
    intro k h
    obtain ⟨c, t⟩ := p
    have hc : cfg.confidence_threshold ≤ c := (h (c, t) (List.mem_cons_self _ _)).1
    have ht : t - t0 ≤ cfg.cooldown_seconds := (h (c, t) (List.mem_cons_self _ _)).2
    have hrest : ∀ q ∈ rest, cfg.confidence_threshold ≤ q.1 ∧ q.2 - t0 ≤ cfg.cooldown_seconds :=
      fun q hq => h q (List.mem_cons_of_mem _ hq)
    rw [runSigns]
    have hlen : k + ((((c, t) :: rest).length : ℕ) : ℤ) = (k + 1) + ((rest.length : ℕ) : ℤ) := by
      push_cast [List.length_cons]
      ring
    by_cases hk : k + 1 > cfg.max_repeats
    · rw [classifyStep_suppressed cfg _ L c [] t (not_lt.mpr hc) rfl (not_lt.mpr ht) hk]
      rw [ih (k + 1) hrest]
      rw [show expectedRepeats cfg.max_repeats L k ((c, t) :: rest) =
            PredictOut.suppressed :: expectedRepeats cfg.max_repeats L (k + 1) rest by
          rw [expectedRepeats, if_pos hk]]
      rw [hlen]
    · rw [classifyStep_repeat cfg _ L c [] t (not_lt.mpr hc) rfl (not_lt.mpr ht) hk]
      rw [ih (k + 1) hrest]
      rw [show expectedRepeats cfg.max_repeats L k ((c, t) :: rest) =
            PredictOut.emit L c false :: expectedRepeats cfg.max_repeats L (k + 1) rest by
          rw [expectedRepeats, if_neg hk]]
      rw [hlen]

/-- Claim C3: label `L` presented `N` times with confidence at or above the
threshold, all within the cooldown window of the first occurrence: the first
call emits `is_new=true` and sets the counter to 1, and each later call
increments the counter, emitting `is_new=false` while the counter is at most
`max_repeats` (exactly `max_repeats − 1` repeat emissions when `N` is large
enough) and suppressing the frame once the counter exceeds it. -/
theorem repeat_run_pattern (cfg : ServiceConfig) (L : String) (c1 t1 : ℚ)
    (rest : List (ℚ × ℚ))
    (h1 : cfg.confidence_threshold ≤ c1)
    (hrest : ∀ p ∈ rest, cfg.confidence_threshold ≤ p.1 ∧ p.2 - t1 ≤ cfg.cooldown_seconds) :
    runSigns cfg L initState ((c1, t1) :: rest) =
      ({ last_sign := some L, last_sign_time := t1,
          same_sign_count := 1 + rest.length },
        PredictOut.emit L c1 true :: expectedRepeats cfg.max_repeats L 1 rest) := by
  rw [runSigns, classifyStep_new cfg initState L c1 [] t1 (not_lt.mpr h1)
    (by simp [initState])]
  rw [runSigns_within cfg L t1 rest 1 hrest]

/-- Claim C3 witness: with `max_repeats = 2`, four A-frames inside the
cooldown window give emit-new, emit-repeat, suppressed, suppressed, with the
counter ending at 4. -/
theorem repeat_run_pattern_witness :
    runSigns cfg0 "A" initState [(9/10, 0), (9/10, 1/2), (9/10, 9/10), (9/10, 1)] =
      ({ last_sign := some "A", last_sign_time := 0, same_sign_count := 4 },
        [.emit "A" (9/10) true, .emit "A" (9/10) false, .suppressed, .suppressed]) := by
  have h := repeat_run_pattern cfg0 "A" (9/10) 0 [(9/10, 1/2), (9/10, 9/10), (9/10, 1)]
    (by norm_num [cfg0, serviceInit, defaultSettings])
    (by norm_num [List.forall_mem_cons, cfg0, serviceInit, defaultSettings])
  rw [h]
  norm_num [expectedRepeats, cfg0, serviceInit, defaultSettings]

/-- Claim C2: the spec's worked scenario at threshold 0.6, max_repeats 2,
cooldown 2.0 from a fresh state: (A,0.9,t=0) emits new; (A,0.9,t=0.5) emits
repeat; (A,0.9,t=0.9) is suppressed; (A,0.9,t=3.0) emits new again
(cooldown elapsed); (B,0.95,t=3.1) emits new; (A,0.3,t=3.2) is a
no-confident-detection. -/
theorem scenario_trace :
    (runFrames cfg0 initState
      [([("A", 9/10)], 0), ([("A", 9/10)], 1/2), ([("A", 9/10)], 9/10),
       ([("A", 9/10)], 3), ([("B", 19/20)], 31/10), ([("A", 3/10)], 16/5)]).2 =
    [.emit "A" (9/10) true, .emit "A" (9/10) false, .suppressed,
     .emit "A" (9/10) true, .emit "B" (19/20) true, .lowConfidence] := by
  have h1 : classifyStep cfg0 initState [("A", 9/10)] 0 =
      ({ last_sign := some "A", last_sign_time := 0, same_sign_count := 1 },
        .emit "A" (9/10) true) := by
    simp [classifyStep, cfg0, defaultSettings, serviceInit, initState]; norm_num
  have h2 : classifyStep cfg0
      { last_sign := some "A", last_sign_time := 0, same_sign_count := 1 }
      [("A", 9/10)] (1/2) =
      ({ last_sign := some "A", last_sign_time := 0, same_sign_count := 2 },
        .emit "A" (9/10) false) := by
    simp [classifyStep, cfg0, defaultSettings, serviceInit]; norm_num
  have h3 : classifyStep cfg0
      { last_sign := some "A", last_sign_time := 0, same_sign_count := 2 }
      [("A", 9/10)] (9/10) =
      ({ last_sign := some "A", last_sign_time := 0, same_sign_count := 3 },
        .suppressed) := by
    simp [classifyStep, cfg0, defaultSettings, serviceInit]; norm_num
  have h4 : classifyStep cfg0
      { last_sign := some "A", last_sign_time := 0, same_sign_count := 3 }
      [("A", 9/10)] 3 =
      ({ last_sign := some "A", last_sign_time := 3, same_sign_count := 1 },
        .emit "A" (9/10) true) := by
    simp [classifyStep, cfg0, defaultSettings, serviceInit]; norm_num
  have h5 : classifyStep cfg0
      { last_sign := some "A", last_sign_time := 3, same_sign_count := 1 }
      [("B", 19/20)] (31/10) =
      ({ last_sign := some "B", last_sign_time := 31/10, same_sign_count := 1 },
        .emit "B" (19/20) true) := by
    simp [classifyStep, cfg0, defaultSettings, serviceInit]; norm_num
  have h6 : classifyStep cfg0
      { last_sign := some "B", last_sign_time := 31/10, same_sign_count := 1 }
      [("A", 3/10)] (16/5) =
      ({ last_sign := some "B", last_sign_time := 31/10, same_sign_count := 1 },
        .lowConfidence) := by
    simp [classifyStep, cfg0, defaultSettings, serviceInit]; norm_num
  rw [runFrames, h1, runFrames, h2, runFrames, h3, runFrames, h4, runFrames, h5,
    runFrames, h6, runFrames]

/-- Claim C7: a malformed frame makes `predict_frame` fail with the
`ValueError` (never touching the deduplication state), the session
controller answers with the structured `{"error": "Invalid image data"}`
payload and keeps looping, and the remaining frames are processed from the
same state exactly as if the malformed frame had never arrived. -/
theorem malformed_frame_recoverable (cfg : ServiceConfig) (s : DedupState)
    (now : ℚ) (err : String) (rest : List (Frame × ℚ)) :
    predict_frame cfg s (.malformed err) now =
      .error ("Failed to process image: " ++ err)
    ∧ handleFrame cfg s (.malformed err) now =
        (s, [invalidImageResponse ("Failed to process image: " ++ err)])
    ∧ runSession cfg s ((.malformed err, now) :: rest) =
        ((runSession cfg s rest).1,
          invalidImageResponse ("Failed to process image: " ++ err)
            :: (runSession cfg s rest).2) := by
  refine ⟨rfl, rfl, ?_⟩
  rw [runSession]
  rfl

/-- Success shape of an emission event: symbol, confidence and novelty flag
present, no message, no error. -/
def isSuccessShape (r : Response) : Prop :=
  r.error = none ∧ r.message = none ∧ r.sign ≠ none ∧ r.confidence ≠ none
    ∧ r.is_new ≠ none

/-- No-detection shape: null symbol, zero confidence, fixed message, no
error. -/
def isNoDetectionShape (r : Response) : Prop :=
  r.error = none ∧ r.sign = none ∧ r.is_new = none ∧ r.confidence = some 0
    ∧ r.message = some "No confident detection"

/-- Error shape: the invalid-image error marker with a detail message and no
symbol fields. -/
def isErrorShape (r : Response) : Prop :=
  r.error = some "Invalid image data" ∧ r.sign = none ∧ r.confidence = none
    ∧ r.is_new = none

theorem success_shape_exclusive (L : String) (c : ℚ) (b : Bool) :
    isSuccessShape (successResponse L c b)
    ∧ ¬ isNoDetectionShape (successResponse L c b)
    ∧ ¬ isErrorShape (successResponse L c b) := by
  simp [isSuccessShape, isNoDetectionShape, isErrorShape, successResponse]

theorem noDetection_shape_exclusive :
    isNoDetectionShape noDetectionResponse
    ∧ ¬ isSuccessShape noDetectionResponse
    ∧ ¬ isErrorShape noDetectionResponse := by
  simp [isSuccessShape, isNoDetectionShape, isErrorShape, noDetectionResponse]

theorem error_shape_exclusive (msg : String) :
    isErrorShape (invalidImageResponse msg)
    ∧ ¬ isSuccessShape (invalidImageResponse msg)
    ∧ ¬ isNoDetectionShape (invalidImageResponse msg) := by
  simp [isSuccessShape, isNoDetectionShape, isErrorShape, invalidImageResponse]

/-- Claim C8: every inbound frame produces exactly one response, and that
response has exactly one of the three shapes — success (with the classifier
confidence rounded to 4 decimal places), no-detection, or structured
error. -/
theorem one_event_per_frame (cfg : ServiceConfig) (s : DedupState)
    (f : Frame) (now : ℚ) :
    (∃ r, (handleFrame cfg s f now).2 = [r] ∧
      ((isSuccessShape r ∧ ¬ isNoDetectionShape r ∧ ¬ isErrorShape r)
        ∨ (isNoDetectionShape r ∧ ¬ isSuccessShape r ∧ ¬ isErrorShape r)
        ∨ (isErrorShape r ∧ ¬ isSuccessShape r ∧ ¬ isNoDetectionShape r)))
    ∧ (∀ s2 L c b, predict_frame cfg s f now = .ok (s2, .emit L c b) →
        (handleFrame cfg s f now).2 = [successResponse L c b]
        ∧ (successResponse L c b).confidence = some (round4 c)) := by
  cases f with
  | malformed err =>
    refine ⟨⟨invalidImageResponse ("Failed to process image: " ++ err), rfl,
      Or.inr (Or.inr (error_shape_exclusive _))⟩, ?_⟩
    intro s2 L c b hok
    simp [predict_frame] at hok
  | valid preds =>
    constructor
    · rcases hcs : classifyStep cfg s preds now with ⟨s2, out⟩
      cases out with
      | noPrediction =>
        exact ⟨noDetectionResponse,
          by simp [handleFrame, predict_frame, hcs, toResult],
          Or.inr (Or.inl noDetection_shape_exclusive)⟩
      | lowConfidence =>
        exact ⟨noDetectionResponse,
          by simp [handleFrame, predict_frame, hcs, toResult],
          Or.inr (Or.inl noDetection_shape_exclusive)⟩
      | suppressed =>
        exact ⟨noDetectionResponse,
          by simp [handleFrame, predict_frame, hcs, toResult],
          Or.inr (Or.inl noDetection_shape_exclusive)⟩
      | emit L c b =>
        exact ⟨successResponse L c b,
          by simp [handleFrame, predict_frame, hcs, toResult],
          Or.inl (success_shape_exclusive L c b)⟩
    · intro s2 L c b hok
      simp only [predict_frame, Except.ok.injEq] at hok
      exact ⟨by simp [handleFrame, predict_frame, hok, toResult], rfl⟩

/-- Claim C8 witness: a concrete successful frame yields exactly the
success payload with the rounded confidence. -/
theorem one_event_per_frame_witness :
    (handleFrame cfg0 initState (Frame.valid [("A", 9/10)]) 0).2 =
      [successResponse "A" (9/10) true] := by
  refine ((one_event_per_frame cfg0 initState (Frame.valid [("A", 9/10)]) 0).2
    { last_sign := some "A", last_sign_time := 0, same_sign_count := 1 }
    "A" (9/10) true ?_).1
  rw [predict_frame, classifyStep_new cfg0 initState "A" (9/10) [] 0
    (by norm_num [cfg0, serviceInit, defaultSettings]) (by simp [initState])]

/-- Claim C1 counterexample: the service is a process-wide singleton, so the
deduplication state is shared across connections.  Two connections that each
send one identical frame (same classifier output, same timestamp) receive
different responses: the first connection gets `is_new = true`, the second
gets `is_new = false`, because the second connection's frame is deduplicated
against the first connection's state. -/
theorem dedup_state_shared_counterexample :
    connResponses 1 (sharedRun cfg0 initState
        [(1, Frame.valid [("A", 9/10)], 0), (2, Frame.valid [("A", 9/10)], 0)]).2
    ≠ connResponses 2 (sharedRun cfg0 initState
        [(1, Frame.valid [("A", 9/10)], 0), (2, Frame.valid [("A", 9/10)], 0)]).2 := by
  have c1 : classifyStep cfg0 initState [("A", 9/10)] 0 =
      ({ last_sign := some "A", last_sign_time := 0, same_sign_count := 1 },
        .emit "A" (9/10) true) := by
    simp [classifyStep, cfg0, defaultSettings, serviceInit, initState]; norm_num
  have c2 : classifyStep cfg0
      { last_sign := some "A", last_sign_time := 0, same_sign_count := 1 }
      [("A", 9/10)] 0 =
      ({ last_sign := some "A", last_sign_time := 0, same_sign_count := 2 },
        .emit "A" (9/10) false) := by
    simp [classifyStep, cfg0, defaultSettings, serviceInit]; norm_num
  have hA : handleFrame cfg0 initState (Frame.valid [("A", 9/10)]) 0 =
      ({ last_sign := some "A", last_sign_time := 0, same_sign_count := 1 },
        [successResponse "A" (9/10) true]) := by
    simp [handleFrame, predict_frame, c1, toResult]
  have hB : handleFrame cfg0
      { last_sign := some "A", last_sign_time := 0, same_sign_count := 1 }
      (Frame.valid [("A", 9/10)]) 0 =
      ({ last_sign := some "A", last_sign_time := 0, same_sign_count := 2 },
        [successResponse "A" (9/10) false]) := by
    simp [handleFrame, predict_frame, c2, toResult]
  rw [sharedRun, hA, sharedRun, hB, sharedRun]
  simp [connResponses, successResponse]

/-- Claim C1 amended: the deduplication state is not per-connection — it
lives in the process-wide singleton that every connection is handed, so a
multi-connection run is exactly one single-state session over the merged
frame stream: the final state and the full response sequence ignore which
connection each frame came from. -/
theorem shared_singleton_threading (cfg : ServiceConfig) (s : DedupState)
    (frames : List (ℕ × Frame × ℚ)) :
    (sharedRun cfg s frames).1 = (runSession cfg s (frames.map (fun p => p.2))).1
    ∧ (sharedRun cfg s frames).2.map Prod.snd =
        (runSession cfg s (frames.map (fun p => p.2))).2 := by
  induction frames generalizing s with
  | nil => exact ⟨rfl, rfl⟩
  | cons p rest ih =>
    obtain ⟨cid, f, t⟩ := p
    constructor
    · simp only [sharedRun, runSession, List.map_cons]
      exact (ih _).1
    · simp only [sharedRun, runSession, List.map_cons, List.map_append, List.map_map]
      rw [(ih _).2]
      congr 1
      simp

/-- Out-of-range configuration values: threshold 1.5 (outside [0,1]),
max_repeats 0 (< 1), cooldown −1 (≤ 0). -/
def invalidSettings : Settings :=
  { SIGN_DETECTION_CONFIDENCE_THRESHOLD := 3/2
    SIGN_DETECTION_MAX_REPEATS := 0
    SIGN_DETECTION_COOLDOWN := -1 }

/-- Claim C9 counterexample: nothing validates the configuration.  With
threshold 1.5, max_repeats 0 and cooldown −1, service construction succeeds
(it is plain field assignment — no `ConfigurationError` exists anywhere in
the code) and the connection loop still serves frames, answering a 0.9
confidence frame with the no-detection payload. -/
theorem config_no_validation_counterexample :
    serviceInit invalidSettings =
      { confidence_threshold := 3/2, max_repeats := 0, cooldown_seconds := -1 }
    ∧ handleFrame (serviceInit invalidSettings) initState
        (Frame.valid [("A", 9/10)]) 0 = (initState, [noDetectionResponse]) := by
  refine ⟨rfl, ?_⟩
  have h := classifyStep_low (serviceInit invalidSettings) initState "A" (9/10) [] 0
    (by norm_num [serviceInit, invalidSettings])
  simp [handleFrame, predict_frame, h, toResult]

/-- Claim C9 amended: invalid configuration values do not prevent startup —
the service initializes from any settings values whatsoever and every frame
of every connection is still answered with exactly one response. -/
theorem service_serves_any_settings (st : Settings) (s : DedupState)
    (f : Frame) (now : ℚ) :
    ((handleFrame (serviceInit st) s f now).2).length = 1 := by
  cases f with
  | malformed err => rfl
  | valid preds =>
    rcases hcs : classifyStep (serviceInit st) s preds now with ⟨s2, out⟩
    cases out <;> simp [handleFrame, predict_frame, hcs, toResult]
